import Mathlib

/-!
Verification of the supervisor / status-monitor core of the sxm-player
repository, shallowly embedded in Lean 4.

Sources embedded here:
* `src/sxm_player/workers/status.py` — the `StatusWorker` looped worker
  (`__init__` and `check_sxm`).
* `src/mortis_music/cli.py` — the supervisor loop in `main`
  (`is_running`, the spawn loop, and the shutdown sequence).

Modelling conventions: Python floats that only ever hold exact decimal
constants (0.1, 5.0, 30.0) are modelled as rationals; a JSON body is
modelled by its serialized string; an HTTP GET is modelled by the request
record it issues (url and optional timeout, as passed to `requests.get`)
plus an oracle giving the outcome, where `none` stands for a raised
network error (`requests` connection failure) and `some r` for a response
with its `ok` flag and body.
-/

namespace SxmPlayer

/-- The two members of the `Event` enum that `StatusWorker` uses:
`Event.RESET_SXM` and `Event.UPDATE_CHANNELS`. -/
inductive Event where
  | RESET_SXM
  | UPDATE_CHANNELS
deriving DecidableEq, Repr

/-- `EventMessage(source, event, payload)` from `sxm_player.queue`:
a typed message pushed on the cross-process event queue. The payload is
modelled as a string (the escalation message or a serialized JSON body). -/
structure EventMessage where
  source : String
  kind : Event
  payload : String
deriving DecidableEq, Repr

/-- An HTTP response as `check_sxm` consumes it: the `ok` flag
(status code in the 2xx/3xx success range) and the body `r.json()`
modelled as its serialized string. -/
structure HttpResponse where
  ok : Bool
  body : String
deriving DecidableEq, Repr

/-- The request issued by a call to `requests.get`: the url and the
`timeout` keyword argument as passed at the call site (`none` when the
call site passes no timeout, which is the `requests` default of waiting
forever). -/
structure HttpRequest where
  url : String
  timeout : Option ℚ
deriving DecidableEq, Repr

/-- The mutable fields of a `StatusWorker` instance that `check_sxm`
reads and writes: `_ip`, `_port`, `_delay` (seconds), `_failures`. -/
structure StatusState where
  ip : String
  port : Nat
  delay : ℚ
  failures : Nat
deriving DecidableEq, Repr

/-- `StatusWorker.__init__`: rewrites an `ip` of `"0.0.0.0"` to
`"127.0.0.1"`, stores `ip` and `port`, and starts from the class
defaults `_delay = 30.0`, `_failures = 0`. -/
def statusInit (port : Nat) (ip : String) : StatusState :=
  { ip := if ip = "0.0.0.0" then "127.0.0.1" else ip
    port := port
    delay := 30
    failures := 0 }

/-- `StatusWorker.NAME`, stamped as the `source` of every pushed event. -/
def statusName : String := "status_check"

/-- The request built by the probe line of `check_sxm`:
`requests.get(f"http://(ip):(port)/channels/")` — url from the stored ip
and port, and no timeout argument. -/
def probeRequest (st : StatusState) : HttpRequest :=
  { url := "http://" ++ st.ip ++ ":" ++ toString st.port ++ "/channels/"
    timeout := none }

/-- `StatusWorker.check_sxm`, one loop iteration of the status monitor.
`sxm_running` is the guard read from shared state; `probe` is the
networking oracle for the GET (`none` = raised network error). Returns
`Except.error ()` when the iteration raises (the uncaught `requests`
exception), otherwise the updated worker state and the list of events
pushed, in order. -/
def check_sxm (st : StatusState) (sxm_running : Bool)
    (probe : HttpRequest → Option HttpResponse) :
    Except Unit (StatusState × List EventMessage) :=
  if sxm_running then
    match probe (probeRequest st) with
    | none => Except.error ()
    | some r =>
      if !r.ok then
        let st1 : StatusState := { st with delay := 5, failures := st.failures + 1 }
        if st1.failures > 3 then
          Except.ok (st1, [⟨statusName, Event.RESET_SXM, "bad status check"⟩])
        else
          Except.ok (st1, [])
      else
        Except.ok ({ st with delay := 30, failures := 0 },
          [⟨statusName, Event.UPDATE_CHANNELS, r.body⟩])
  else
    Except.ok (st, [])

/-- Iterate `check_sxm` with the guard true over a sequence of probe
responses, recording after each iteration the failure counter and the
events that iteration pushed. -/
def statusTrace : StatusState → List HttpResponse → List (Nat × List EventMessage)
  | _, [] => []
  | st, r :: rs =>
    match check_sxm st true (fun _ => some r) with
    | Except.ok (st1, evs) => (st1.failures, evs) :: statusTrace st1 rs
    | Except.error _ => []

/-- Number of `RESET_SXM` escalation events in a pushed-event list. -/
def countReset (evs : List EventMessage) : Nat :=
  (evs.filter (fun e => decide (e.kind = Event.RESET_SXM))).length

/-- A failed probe response (HTTP 500: `ok` false). -/
def badResp : HttpResponse := ⟨false, "err"⟩

/-- A successful probe response (HTTP 200: `ok` true). -/
def goodResp : HttpResponse := ⟨true, "channels"⟩

/-! ### Supervisor (`src/mortis_music/cli.py`) -/

/-- The shared `state.runners` mapping, worker name to recorded process
identifier: a missing key raises `KeyError` in `is_running`, a recorded
`None` raises `TypeError` from `os.kill`, a recorded pid is probed. -/
abbrev Runners := List (String × Option Nat)

/-- `state.set_runner(name, value)`: update (or insert) the entry for
`name` in the shared runners mapping. -/
def set_runner (rs : Runners) (name : String) (v : Option Nat) : Runners :=
  match rs with
  | [] => [(name, v)]
  | (n, w) :: t => if n = name then (name, v) :: t else (n, w) :: set_runner t name v

/-- Outcome of the zero-effect signal `os.kill(pid, 0)` against the OS:
`a pid = true` exactly when the process exists (otherwise
`ProcessLookupError` is raised), together with the lookup of the recorded
identifier. `liveIn a rs name` is true iff a pid is recorded for `name`
and that process exists. -/
def liveIn (a : Nat → Bool) (rs : Runners) (name : String) : Bool :=
  match List.lookup name rs with
  | some (some pid) => a pid
  | _ => false

/-- `is_running(name)` from `main`: try `os.kill(state.runners[name], 0)`
and return `True`; on `KeyError` (no key), `TypeError` (recorded `None`)
or `ProcessLookupError` (no such process), clear the recorded identifier
with `state.set_runner(name, None)` and return `False`. Returns the
boolean result and the runners mapping after the call. -/
def is_running (a : Nat → Bool) (rs : Runners) (name : String) :
    Bool × Runners :=
  match List.lookup name rs with
  | some (some pid) =>
      if a pid then (true, rs) else (false, set_runner rs name none)
  | some none => (false, set_runner rs name none)
  | none => (false, set_runner rs name none)

/-- The configuration that decides which workers the supervisor tick
checks: `output_folder is not None` requires archiver and processor,
`state.active_channel_id is not None` requires hls. -/
structure TickConfig where
  output_folder : Bool
  active_channel : Bool
deriving DecidableEq, Repr

/-- The worker names the tick body checks, in source order: server, bot,
then archiver and processor when an output folder is set, then hls when a
channel is active. -/
def requiredWorkers (c : TickConfig) : List String :=
  ["server", "bot"]
    ++ (if c.output_folder then ["archiver", "processor"] else [])
    ++ (if c.active_channel then ["hls"] else [])

/-- One `if not is_running(name): spawn_process(...); delay = 5` block of
the tick body, threading the accumulated (spawned names, delay, runners)
state. -/
def probeStep (a : Nat → Bool) (st : List String × ℚ × Runners)
    (name : String) : List String × ℚ × Runners :=
  let pr := is_running a st.2.2 name
  if pr.1 then (st.1, st.2.1, pr.2) else (st.1 ++ [name], 5, pr.2)

/-- One iteration of the supervisor `while True` loop before its
`time.sleep(delay)`: `delay = 0.1`, then the chain of
`if not is_running(...): spawn_process(...); delay = 5` blocks in source
order. Returns the spawn requests submitted (in order), the final delay,
and the runners mapping after the liveness probes. -/
def tick (c : TickConfig) (a : Nat → Bool) (rs : Runners) :
    List String × ℚ × Runners :=
  (requiredWorkers c).foldl (probeStep a) ([], (1 : ℚ)/10, rs)

/-- Observable actions of one supervisor tick: the spawn requests
submitted to the pool, then the single `time.sleep(delay)`. -/
inductive SupAction where
  | spawn (name : String)
  | sleep (d : ℚ)
deriving DecidableEq, Repr

/-- The action trace of one tick: every spawn request is submitted
before the one sleep at the end of the loop body. -/
def tickTrace (c : TickConfig) (a : Nat → Bool) (rs : Runners) :
    List SupAction :=
  (tick c a rs).1.map SupAction.spawn ++ [SupAction.sleep (tick c a rs).2.1]

/-- Observable actions of a whole `main` run: completed ticks (with the
spawns submitted and the delay slept), then the shutdown calls
`pool.close()`, `pool.terminate()`, `pool.join()` from the `finally`
block. -/
inductive MainAction where
  | tickA (spawned : List String) (delay : ℚ)
  | close
  | terminate
  | join
deriving DecidableEq, Repr

/-- Run `k` supervisor ticks, with `env i` the OS liveness oracle during
tick `i`, threading the runners mapping; returns the tick actions and the
final runners mapping. -/
def runTicks (c : TickConfig) : (Nat → Nat → Bool) → Runners → Nat →
    List MainAction × Runners
  | _, rs, 0 => ([], rs)
  | env, rs, Nat.succ k =>
    let t := tick c (env 0) rs
    let rest := runTicks c (fun i => env (i + 1)) t.2.2 k
    (MainAction.tickA t.1 t.2.1 :: rest.1, rest.2)

/-- A `main` run in which `KeyboardInterrupt` arrives after `k` completed
ticks: the try-body ticks, then the `finally` block runs `pool.close()`,
`pool.terminate()`, `pool.join()` in that order, and `main` returns. -/
def mainTrace (c : TickConfig) (env : Nat → Nat → Bool) (rs : Runners)
    (k : Nat) : List MainAction :=
  (runTicks c env rs k).1 ++
    [MainAction.close, MainAction.terminate, MainAction.join]

/-! ### Helper lemmas -/

lemma lookup_set_runner_ne (n m : String) (v : Option Nat) (h : m ≠ n) :
    ∀ rs : Runners, List.lookup m (set_runner rs n v) = List.lookup m rs
  | [] => by
    have hb : (m == n) = false := beq_false_of_ne h
    simp [set_runner, List.lookup, hb]
  | (a, b) :: t => by
    by_cases ha : a = n
    · subst ha
      have hb : (m == a) = false := beq_false_of_ne h
      simp [set_runner, List.lookup, hb]
    · simp [set_runner, ha, List.lookup, lookup_set_runner_ne n m v h t]

lemma lookup_set_runner_self (n : String) (v : Option Nat) :
    ∀ rs : Runners, List.lookup n (set_runner rs n v) = some v
  | [] => by simp [set_runner, List.lookup]
  | (a, b) :: t => by
    by_cases ha : a = n
    · subst ha
      simp [set_runner, List.lookup]
    · have hb : (n == a) = false := beq_false_of_ne (Ne.symm ha)
      simp [set_runner, ha, List.lookup, hb, lookup_set_runner_self n v t]

lemma liveIn_set_runner_ne (a : Nat → Bool) (rs : Runners) (n m : String)
    (v : Option Nat) (h : m ≠ n) :
    liveIn a (set_runner rs n v) m = liveIn a rs m := by
  simp [liveIn, lookup_set_runner_ne n m v h rs]

lemma is_running_eq (a : Nat → Bool) (rs : Runners) (name : String) :
    is_running a rs name =
      if liveIn a rs name then (true, rs)
      else (false, set_runner rs name none) := by
  unfold is_running liveIn
  cases List.lookup name rs with
  | none => simp
  | some o =>
    cases o with
    | none => simp
    | some pid => cases h : a pid <;> simp [h]

lemma liveIn_eq_false_iff (a : Nat → Bool) (rs : Runners) (name : String) :
    liveIn a rs name = false ↔
      List.lookup name rs = none ∨ List.lookup name rs = some none ∨
        ∃ pid, List.lookup name rs = some (some pid) ∧ a pid = false := by
  cases h : List.lookup name rs with
  | none => simp [liveIn, h]
  | some o =>
    cases o with
    | none => simp [liveIn, h]
    | some pid => cases hp : a pid <;> simp [liveIn, h, hp]

lemma foldl_probe_spec (a : Nat → Bool) :
    ∀ names : List String, names.Nodup →
      ∀ (sp : List String) (d : ℚ) (rs : Runners),
        (names.foldl (probeStep a) (sp, d, rs)).1 =
            sp ++ names.filter (fun n => !liveIn a rs n) ∧
        (names.foldl (probeStep a) (sp, d, rs)).2.1 =
            (if names.filter (fun n => !liveIn a rs n) = [] then d else 5)
  | [], _, sp, d, rs => by simp
  | n :: ns, h, sp, d, rs => by
    have hn : n ∉ ns := (List.nodup_cons.mp h).1
    have hns : ns.Nodup := (List.nodup_cons.mp h).2
    cases hl : liveIn a rs n with
    | true =>
      have step : probeStep a (sp, d, rs) n = (sp, d, rs) := by
        simp [probeStep, is_running_eq, hl]
      rw [List.foldl_cons, step]
      have ih := foldl_probe_spec a ns hns sp d rs
      simpa [hl] using ih
    | false =>
      have step : probeStep a (sp, d, rs) n =
          (sp ++ [n], 5, set_runner rs n none) := by
        simp [probeStep, is_running_eq, hl]
      rw [List.foldl_cons, step]
      have ih := foldl_probe_spec a ns hns (sp ++ [n]) 5 (set_runner rs n none)
      have hfil : ns.filter (fun m => !liveIn a (set_runner rs n none) m) =
          ns.filter (fun m => !liveIn a rs m) := by
        apply List.filter_congr
        intro m hm
        have hmn : m ≠ n := fun e => hn (e ▸ hm)
        simp [liveIn_set_runner_ne a rs n m none hmn]
      constructor
      · rw [ih.1, hfil]
        simp [hl]
      · rw [ih.2, hfil]
        simp [hl]

lemma requiredWorkers_nodup (c : TickConfig) : (requiredWorkers c).Nodup := by
  obtain ⟨o, ac⟩ := c
  cases o <;> cases ac <;> decide

lemma tick_spawned (c : TickConfig) (a : Nat → Bool) (rs : Runners) :
    (tick c a rs).1 =
      (requiredWorkers c).filter (fun n => !liveIn a rs n) := by
  have h :=
    foldl_probe_spec a (requiredWorkers c) (requiredWorkers_nodup c)
      [] ((1 : ℚ)/10) rs
  simpa [tick] using h.1

lemma tick_delay_eq (c : TickConfig) (a : Nat → Bool) (rs : Runners) :
    (tick c a rs).2.1 =
      (if (tick c a rs).1 = [] then (1 : ℚ)/10 else 5) := by
  have h :=
    foldl_probe_spec a (requiredWorkers c) (requiredWorkers_nodup c)
      [] ((1 : ℚ)/10) rs
  rw [tick_spawned]
  simpa [tick] using h.2

/-! ### Claim theorems: status monitor -/

/-- C1: a `RESET_SXM` escalation event is pushed on a status iteration if
and only if the probe response is not ok and the failure counter, after
being incremented, strictly exceeds 3; the scenario of three failures then
one success yields failure counters [1,2,3,0] and zero escalation events,
and six consecutive failures push one escalation event on each of the 4th,
5th and 6th iterations. -/
theorem reset_event_iff_threshold :
    (∀ (st : StatusState) (r : HttpResponse) (st1 : StatusState)
        (evs : List EventMessage),
        check_sxm st true (fun _ => some r) = Except.ok (st1, evs) →
        ((∃ e ∈ evs, e.kind = Event.RESET_SXM) ↔
          r.ok = false ∧ st.failures + 1 > 3)) ∧
    (statusTrace (statusInit 9999 "127.0.0.1")
        [badResp, badResp, badResp, goodResp]).map Prod.fst = [1, 2, 3, 0] ∧
    (statusTrace (statusInit 9999 "127.0.0.1")
        [badResp, badResp, badResp, goodResp]).map
        (fun p => countReset p.2) = [0, 0, 0, 0] ∧
    (statusTrace (statusInit 9999 "127.0.0.1")
        (List.replicate 6 badResp)).map
        (fun p => countReset p.2) = [0, 0, 0, 1, 1, 1] := by
  refine ⟨?_, by decide, by decide, by decide⟩
  intro st r st1 evs h
  cases hok : r.ok with
  | true =>
    simp [check_sxm, hok] at h
    rcases h with ⟨h1, h2⟩
    subst h2
    simp [hok]
  | false =>
    by_cases h3 : st.failures + 1 > 3
    · simp [check_sxm, hok, h3] at h
      rcases h with ⟨h1, h2⟩
      subst h2
      simp [hok, h3]
    · simp [check_sxm, hok, h3] at h
      rcases h with ⟨h1, h2⟩
      subst h2
      simp [hok, h3]

/-- C1 witness: the threshold iff evaluated at the initial state and a
failed response, where the hypothesis equation is discharged by
computation. -/
theorem reset_event_iff_threshold_w :
    (∃ e ∈ ([] : List EventMessage), e.kind = Event.RESET_SXM) ↔
      badResp.ok = false ∧ (statusInit 9999 "127.0.0.1").failures + 1 > 3 :=
  reset_event_iff_threshold.1 (statusInit 9999 "127.0.0.1") badResp
    { statusInit 9999 "127.0.0.1" with delay := 5, failures := 1 } []
    rfl

/-- C2 counterexample: on a network error (a raised `requests` connection
failure) `check_sxm` does not return normally at the initial state — the
exception propagates, so the failure counter is not incremented and the
poll interval is not shrunk. This refutes the claim that a network error
is handled locally as a failed probe. -/
theorem neterr_not_handled_cex :
    ¬ ∃ (st1 : StatusState) (evs : List EventMessage),
        check_sxm (statusInit 9999 "127.0.0.1") true (fun _ => none) =
          Except.ok (st1, evs) := by
  rintro ⟨st1, evs, h⟩
  simp [check_sxm] at h

/-- C2 amended: a network error during the probe is not caught by
`check_sxm`: the exception propagates out of the iteration and neither the
poll interval nor the failure counter is updated; only a response with a
non-success HTTP status counts as a failed probe. -/
theorem neterr_raises :
    ∀ st : StatusState,
      check_sxm st true (fun _ => none) = Except.error () :=
  fun _ => rfl

/-- C4: whenever the probe response is ok, regardless of the prior
failure streak, `check_sxm` resets the delay to 30, resets the failure
counter to 0, and pushes exactly one `UPDATE_CHANNELS` event carrying the
response body. -/
theorem success_resets :
    ∀ (st : StatusState) (r : HttpResponse), r.ok = true →
      check_sxm st true (fun _ => some r) =
        Except.ok ({ st with delay := 30, failures := 0 },
          [⟨statusName, Event.UPDATE_CHANNELS, r.body⟩]) := by
  intro st r h
  simp [check_sxm, h]

/-- C4 witness: the success reset evaluated at a concrete state with a
nonzero failure streak. -/
theorem success_resets_w :
    goodResp.ok = true ∧
      check_sxm ⟨"127.0.0.1", 9999, 5, 3⟩ true (fun _ => some goodResp) =
        Except.ok ({ (⟨"127.0.0.1", 9999, 5, 3⟩ : StatusState) with
            delay := 30, failures := 0 },
          [⟨statusName, Event.UPDATE_CHANNELS, goodResp.body⟩]) :=
  ⟨rfl, success_resets ⟨"127.0.0.1", 9999, 5, 3⟩ goodResp rfl⟩

/-- C6 counterexample: the probe request built by `check_sxm` carries no
timeout at all — `requests.get` is called without a `timeout` argument —
so the GET is not a bounded-timeout request. -/
theorem probe_timeout_cex :
    ¬ ∃ t : ℚ,
        (probeRequest (statusInit 9999 "127.0.0.1")).timeout = some t := by
  rintro ⟨t, h⟩
  simp [probeRequest] at h

/-- C6 amended: every health probe is issued with no timeout argument
(the `requests` default of waiting indefinitely), so a single probe can
block an iteration without bound. -/
theorem probe_timeout_none :
    ∀ st : StatusState, (probeRequest st).timeout = none :=
  fun _ => rfl

/-- C8: when the shared-state guard `sxm_running` is false, the status
iteration is a no-op: no probe outcome is consumed, the worker state is
returned unchanged and no event is pushed. -/
theorem guard_false_noop :
    ∀ (st : StatusState) (probe : HttpRequest → Option HttpResponse),
      check_sxm st false probe = Except.ok (st, []) :=
  fun _ _ => rfl

/-- C10: a `StatusWorker` constructed with ip "0.0.0.0" stores
"127.0.0.1" and probes `http://127.0.0.1:(port)/channels/`; any other ip
is stored unchanged and probed as given. -/
theorem ip_rewrite :
    ∀ (p : Nat) (ip : String),
      (statusInit p "0.0.0.0").ip = "127.0.0.1" ∧
      (probeRequest (statusInit p "0.0.0.0")).url =
        "http://127.0.0.1:" ++ toString p ++ "/channels/" ∧
      (ip ≠ "0.0.0.0" →
        (statusInit p ip).ip = ip ∧
        (probeRequest (statusInit p ip)).url =
          "http://" ++ ip ++ ":" ++ toString p ++ "/channels/") := by
  intro p ip
  refine ⟨by simp [statusInit], by simp [probeRequest, statusInit],
    fun h => ⟨by simp [statusInit, h], by simp [probeRequest, statusInit, h]⟩⟩

/-- C10 witness: the rewrite and the unchanged case evaluated at port
9999 and ip "192.168.1.5". -/
theorem ip_rewrite_w :
    (statusInit 9999 "0.0.0.0").ip = "127.0.0.1" ∧
      ("192.168.1.5" : String) ≠ "0.0.0.0" ∧
      (statusInit 9999 "192.168.1.5").ip = "192.168.1.5" :=
  ⟨(ip_rewrite 9999 "192.168.1.5").1, by decide,
    ((ip_rewrite 9999 "192.168.1.5").2.2 (by decide)).1⟩

/-! ### Claim theorems: supervisor -/

/-- C3: on a supervisor tick, a spawn request is submitted for a required
worker name if and only if its recorded identifier is absent (missing key
or `None`) or the zero-effect signal finds no such process. -/
theorem spawn_iff_not_alive :
    ∀ (c : TickConfig) (a : Nat → Bool) (rs : Runners) (name : String),
      name ∈ requiredWorkers c →
      (name ∈ (tick c a rs).1 ↔
        List.lookup name rs = none ∨ List.lookup name rs = some none ∨
          ∃ pid, List.lookup name rs = some (some pid) ∧ a pid = false) := by
  intro c a rs name hreq
  rw [tick_spawned, List.mem_filter, ← liveIn_eq_false_iff]
  simp [hreq]

/-- C3 witness: the spawn condition evaluated for the server worker on an
empty runners mapping. -/
theorem spawn_iff_not_alive_w :
    "server" ∈ requiredWorkers ⟨false, false⟩ ∧
      ("server" ∈ (tick ⟨false, false⟩ (fun _ => false) []).1 ↔
        List.lookup "server" ([] : Runners) = none ∨
          List.lookup "server" ([] : Runners) = some none ∨
          ∃ pid, List.lookup "server" ([] : Runners) = some (some pid) ∧
            false = false) :=
  ⟨by decide,
    spawn_iff_not_alive ⟨false, false⟩ (fun _ => false) [] "server"
      (by decide)⟩

/-- C5: on every tick, all spawn requests are submitted before the single
sleep, and the slept delay is the tight default 1/10 s when no worker was
spawned and the settle period 5 s otherwise; the two-worker scenario with
required workers server and bot behaves as [both spawned, delay 5], [only
bot spawned, delay 5], [none spawned, delay 1/10]. -/
theorem tick_delay_policy :
    (∀ (c : TickConfig) (a : Nat → Bool) (rs : Runners),
        tickTrace c a rs =
          (tick c a rs).1.map SupAction.spawn ++
            [SupAction.sleep
              (if (tick c a rs).1 = [] then (1 : ℚ)/10 else 5)]) ∧
    (tick ⟨false, false⟩ (fun _ => false) []).1 = ["server", "bot"] ∧
    (tick ⟨false, false⟩ (fun _ => false) []).2.1 = 5 ∧
    (tick ⟨false, false⟩ (fun p => p == 10)
        [("server", some 10), ("bot", some 20)]).1 = ["bot"] ∧
    (tick ⟨false, false⟩ (fun p => p == 10)
        [("server", some 10), ("bot", some 20)]).2.1 = 5 ∧
    (tick ⟨false, false⟩ (fun p => p == 10 || p == 21)
        [("server", some 10), ("bot", some 21)]).1 = [] ∧
    (tick ⟨false, false⟩ (fun p => p == 10 || p == 21)
        [("server", some 10), ("bot", some 21)]).2.1 = 1/10 := by
  refine ⟨?_, by decide, rfl, by decide, rfl, by decide, rfl⟩
  intro c a rs
  rw [tickTrace, tick_delay_eq]

/-- C7: the liveness probe `is_running` returns false and clears the
recorded identifier to `None` whenever the recorded identifier is absent,
`None`, or names no existing process; on a successful probe it returns
true and leaves the runners mapping unchanged. -/
theorem probe_clears_on_failure :
    ∀ (a : Nat → Bool) (rs : Runners) (name : String),
      (liveIn a rs name = true → is_running a rs name = (true, rs)) ∧
      (liveIn a rs name = false →
        is_running a rs name = (false, set_runner rs name none) ∧
        List.lookup name (set_runner rs name none) = some none) := by
  intro a rs name
  constructor
  · intro h
    rw [is_running_eq, h]
    simp
  · intro h
    rw [is_running_eq, h]
    simp [lookup_set_runner_self]

/-- C7 witness: both probe outcomes evaluated on concrete runner
mappings. -/
theorem probe_clears_on_failure_w :
    (liveIn (fun _ => true) [("server", some 7)] "server" = true ∧
      is_running (fun _ => true) [("server", some 7)] "server" =
        (true, [("server", some 7)])) ∧
    (liveIn (fun _ => false) [("bot", some 9)] "bot" = false ∧
      is_running (fun _ => false) [("bot", some 9)] "bot" =
        (false, set_runner [("bot", some 9)] "bot" none) ∧
      List.lookup "bot" (set_runner [("bot", some 9)] "bot" none) =
        some none) :=
  ⟨⟨by decide,
      (probe_clears_on_failure (fun _ => true) [("server", some 7)]
        "server").1 (by decide)⟩,
    ⟨by decide,
      (probe_clears_on_failure (fun _ => false) [("bot", some 9)]
        "bot").2 (by decide)⟩⟩

/-- C9: a `main` run interrupted after any number of ticks performs only
tick actions before the interrupt, and then, in order, `pool.close()`,
`pool.terminate()` and `pool.join()` — nothing follows the pool drain. -/
theorem shutdown_after_interrupt :
    ∀ (c : TickConfig) (env : Nat → Nat → Bool) (rs : Runners) (k : Nat),
      ∃ ts : List MainAction,
        (∀ act ∈ ts, ∃ sp d, act = MainAction.tickA sp d) ∧
        mainTrace c env rs k =
          ts ++ [MainAction.close, MainAction.terminate, MainAction.join] := by
  intro c env rs k
  refine ⟨(runTicks c env rs k).1, ?_, rfl⟩
  induction k generalizing env rs with
  | zero => simp [runTicks]
  | succ k ih =>
    intro act hact
    simp only [runTicks, List.mem_cons] at hact
    rcases hact with h | h
    · exact ⟨_, _, h⟩
    · exact ih _ _ act h

end SxmPlayer
